import Mathlib

/-!
Verification of the biometric-anchored credential and write-authorization
protocol shipped as client libraries in this Sling starter-content repository.

The development shallowly embeds the JavaScript client code:

* `apps/blockchain-aem/components/login/clientlibs/js/biometric-wallet-creation.js`
  (namespace `WalletCreation`): derives a secp256k1 wallet by hashing the
  P-256 credential public key and feeding the digest to the ethers.js wallet
  constructor, and stores the resulting linkage data.
* the legacy `biometric-wallet-creation.js` variant (namespace
  `LegacyWalletCreation`): derives an address by truncating a hash.
* `biometric-auth.js` (namespace `BiometricManager`): WebAuthn registration
  and write-proposal signing, with its base64 and storage helpers.

Machine integers are modelled as `Nat` with explicit reductions modulo
`2 ^ 32` (SHA-256) and `2 ^ 64` (Keccak); byte strings are `List Nat` whose
elements are below 256. Browser and network effects are passed in explicitly
as environment records, and Web Storage is an explicit association list.
-/

/-- The modulus for 32-bit machine words used by SHA-256. -/
def M32 : Nat := 4294967296

/-- The modulus for 64-bit machine lanes used by Keccak. -/
def M64 : Nat := 18446744073709551616

/-- Rotate a 32-bit word right by `k` bit positions. -/
def rotr32 (k w : Nat) : Nat := ((w >>> k) ||| (w <<< (32 - k))) % M32

/-- Lowercase hexadecimal digits, as produced by the JavaScript
`Number.prototype.toString(16)`. -/
def hexDigit (n : Nat) : Char :=
  [Char.ofNat 48, Char.ofNat 49, Char.ofNat 50, Char.ofNat 51, Char.ofNat 52,
   Char.ofNat 53, Char.ofNat 54, Char.ofNat 55, Char.ofNat 56, Char.ofNat 57,
   Char.ofNat 97, Char.ofNat 98, Char.ofNat 99, Char.ofNat 100, Char.ofNat 101,
   Char.ofNat 102].getD n (Char.ofNat 48)

/-- The JavaScript idiom `b.toString(16).padStart(2, String.fromCharCode 48)`
applied to a byte value below 256: two lowercase hex digits. -/
def byteToHexChars (b : Nat) : List Char :=
  [hexDigit (b / 16), hexDigit (b % 16)]

/-- Hex rendering of a byte list, as built by
`Array.from(bytes).map(b => b.toString(16).padStart(2, ...)).join(...)`. -/
def bytesToHexChars (bs : List Nat) : List Char :=
  (bs.map byteToHexChars).flatten

/-- Hex rendering of a byte list as a `String`. -/
def bytesToHex (bs : List Nat) : String :=
  ⟨bytesToHexChars bs⟩

/-! ### SHA-256

A byte-level embedding of the SHA-256 function computed by
`crypto.subtle.digest(SHA-256, data)` in the sources. Input and output are
byte lists; all word arithmetic is `Nat` reduced modulo `2 ^ 32`. -/

/-- The 64 SHA-256 round constants (decimal renderings of the FIPS 180-4 words). -/
def sha256K : List Nat :=
  [1116352408, 1899447441, 3049323471, 3921009573, 961987163,
   1508970993, 2453635748, 2870763221, 3624381080, 310598401,
   607225278, 1426881987, 1925078388, 2162078206, 2614888103,
   3248222580, 3835390401, 4022224774, 264347078, 604807628,
   770255983, 1249150122, 1555081692, 1996064986, 2554220882,
   2821834349, 2952996808, 3210313671, 3336571891, 3584528711,
   113926993, 338241895, 666307205, 773529912, 1294757372,
   1396182291, 1695183700, 1986661051, 2177026350, 2456956037,
   2730485921, 2820302411, 3259730800, 3345764771, 3516065817,
   3600352804, 4094571909, 275423344, 430227734, 506948616,
   659060556, 883997877, 958139571, 1322822218, 1537002063,
   1747873779, 1955562222, 2024104815, 2227730452, 2361852424,
   2428436474, 2756734187, 3204031479, 3329325298]

/-- The initial SHA-256 hash state (decimal renderings of the FIPS 180-4 words). -/
def sha256H0 : List Nat :=
  [1779033703, 3144134277, 1013904242, 2773480762,
   1359893119, 2600822924, 528734635, 1541459225]

/-- Big-endian packing of bytes into 32-bit words. -/
def bytesToWords32 : List Nat → List Nat
  | a :: b :: c :: d :: rest => (((a * 256 + b) * 256 + c) * 256 + d) :: bytesToWords32 rest
  | _ => []

/-- Big-endian unpacking of a 32-bit word into four bytes. -/
def word32ToBytes (w : Nat) : List Nat :=
  [w / 16777216 % 256, w / 65536 % 256, w / 256 % 256, w % 256]

/-- SHA-256 padding: append a 0x80 byte, zeros, and the big-endian 64-bit
bit length, reaching a multiple of 64 bytes. -/
def sha256Pad (msg : List Nat) : List Nat :=
  let L := msg.length
  let bitLen := 8 * L
  let k := (119 - L % 64) % 64
  msg ++ 128 :: List.replicate k 0 ++
    [bitLen / 2 ^ 56 % 256, bitLen / 2 ^ 48 % 256, bitLen / 2 ^ 40 % 256,
     bitLen / 2 ^ 32 % 256, bitLen / 2 ^ 24 % 256, bitLen / 2 ^ 16 % 256,
     bitLen / 2 ^ 8 % 256, bitLen % 256]

/-- Extend the 16 message words of one block to the 64-word schedule. -/
def sha256Schedule (ws : List Nat) : List Nat :=
  (List.range 48).foldl
    (fun w i =>
      let g := fun j => w.getD j 0
      let wm15 := g (i + 1)
      let wm2 := g (i + 14)
      let s0 := rotr32 7 wm15 ^^^ rotr32 18 wm15 ^^^ (wm15 >>> 3)
      let s1 := rotr32 17 wm2 ^^^ rotr32 19 wm2 ^^^ (wm2 >>> 10)
      w ++ [(g i + s0 + g (i + 9) + s1) % M32])
    ws

/-- One SHA-256 compression round step over the eight working variables. -/
def sha256Round (w : List Nat) (st : List Nat) (i : Nat) : List Nat :=
  match st with
  | [va, vb, vc, vd, ve, vf, vg, vh] =>
    let S1 := rotr32 6 ve ^^^ rotr32 11 ve ^^^ rotr32 25 ve
    let ch := (ve &&& vf) ^^^ ((ve ^^^ (M32 - 1)) &&& vg)
    let t1 := (vh + S1 + ch + sha256K.getD i 0 + w.getD i 0) % M32
    let S0 := rotr32 2 va ^^^ rotr32 13 va ^^^ rotr32 22 va
    let maj := (va &&& vb) ^^^ (va &&& vc) ^^^ (vb &&& vc)
    let t2 := (S0 + maj) % M32
    [(t1 + t2) % M32, va, vb, vc, (vd + t1) % M32, ve, vf, vg]
  | _ => st

/-- Compress one 64-byte block into the hash state. -/
def sha256Compress (h : List Nat) (blockWords : List Nat) : List Nat :=
  let w := sha256Schedule blockWords
  let fin := (List.range 64).foldl (sha256Round w) h
  List.zipWith (fun x y => (x + y) % M32) h fin

/-- Process the padded message 64 bytes at a time. The fuel argument makes
the recursion structural; it is always at least the number of blocks. -/
def sha256Blocks (fuel : Nat) (h : List Nat) (bytes : List Nat) : List Nat :=
  match fuel with
  | 0 => h
  | fuel + 1 =>
    match bytes with
    | [] => h
    | bs => sha256Blocks fuel (sha256Compress h (bytesToWords32 (bs.take 64))) (bs.drop 64)

/-- SHA-256 of a byte list, as computed by `crypto.subtle.digest` in the
sources; returns the 32 digest bytes. -/
def sha256 (msg : List Nat) : List Nat :=
  let padded := sha256Pad msg
  ((sha256Blocks (padded.length / 64) sha256H0 padded).map word32ToBytes).flatten

/-! ### Base64

Models of the browser `btoa` and `atob` primitives as used by the
`BiometricManager._arrayBufferToBase64` and `_base64ToArrayBuffer` helpers:
`btoa` encodes a binary string whose character codes are the bytes, and
`atob` decodes a standard (padded) base64 string back to character codes. -/

/-- The standard base64 alphabet. -/
def b64Chars : List Char :=
  "ABCDEFGHIJKLMNOPQRSTUVWXYZabcdefghijklmnopqrstuvwxyz0123456789+/".data

/-- The base64 character for a sextet value. -/
def b64Char (n : Nat) : Char := b64Chars.getD n (Char.ofNat 65)

/-- The sextet value of a base64 character. -/
def b64Index (c : Char) : Nat := b64Chars.indexOf c

/-- The base64 padding character. -/
def b64Pad : Char := Char.ofNat 61

/-- Character-level `btoa`: encode byte values three at a time into four
base64 characters, padding a final group of one or two bytes with `=`. -/
def btoaChars : List Nat → List Char
  | [] => []
  | [a] => [b64Char (a / 4), b64Char (a % 4 * 16), b64Pad, b64Pad]
  | [a, b] => [b64Char (a / 4), b64Char (a % 4 * 16 + b / 16), b64Char (b % 16 * 4), b64Pad]
  | a :: b :: c :: rest =>
    b64Char (a / 4) :: b64Char (a % 4 * 16 + b / 16) ::
      b64Char (b % 16 * 4 + c / 64) :: b64Char (c % 64) :: btoaChars rest

/-- Character-level `atob` on a base64 string with the padding characters
already removed: decode four characters at a time into three bytes, a final
group of three characters into two bytes, and of two characters into one. -/
def atobBytes : List Char → List Nat
  | c1 :: c2 :: c3 :: c4 :: rest =>
    (b64Index c1 * 4 + b64Index c2 / 16) ::
      (b64Index c2 % 16 * 16 + b64Index c3 / 4) ::
      (b64Index c3 % 4 * 64 + b64Index c4) :: atobBytes rest
  | [c1, c2, c3] =>
    [b64Index c1 * 4 + b64Index c2 / 16, b64Index c2 % 16 * 16 + b64Index c3 / 4]
  | [c1, c2] => [b64Index c1 * 4 + b64Index c2 / 16]
  | _ => []

namespace BiometricManager

/-- Embedding of `BiometricManager._arrayBufferToBase64`: build the binary
string from the buffer bytes with `String.fromCharCode` and apply `btoa`. -/
def arrayBufferToBase64 (buffer : List Nat) : String :=
  ⟨btoaChars buffer⟩

/-- Embedding of `BiometricManager._base64ToArrayBuffer`: apply `atob` and
read the character codes back into a byte array. -/
def base64ToArrayBuffer (base64 : String) : List Nat :=
  atobBytes (base64.data.filter (fun c => c ≠ b64Pad))

/-- Embedding of `BiometricManager._base64UrlToBase64`: translate the
base64url alphabet back to standard base64 and restore the padding. -/
def base64UrlToBase64 (base64url : String) : String :=
  let base64 := base64url.data.map (fun c =>
    if c = Char.ofNat 45 then Char.ofNat 43
    else if c = Char.ofNat 95 then Char.ofNat 47 else c)
  let pad := base64.length % 4
  if pad = 0 then ⟨base64⟩ else ⟨base64 ++ List.replicate (4 - pad) b64Pad⟩

/-- Embedding of `BiometricManager._base64UrlToArrayBuffer`. -/
def base64UrlToArrayBuffer (base64url : String) : List Nat :=
  base64ToArrayBuffer (base64UrlToBase64 base64url)

end BiometricManager

/-! ### Percent-encoding

Model of the ECMAScript `encodeURIComponent` builtin used when the proposal
signer builds its challenge request URL. -/

/-- The characters `encodeURIComponent` leaves unescaped: ASCII letters,
digits, and `- _ . ! ~ * ( )` together with the apostrophe (code 39). -/
def isURIUnescaped (c : Char) : Bool :=
  (Char.ofNat 65 ≤ c && c ≤ Char.ofNat 90) ||
  (Char.ofNat 97 ≤ c && c ≤ Char.ofNat 122) ||
  (Char.ofNat 48 ≤ c && c ≤ Char.ofNat 57) ||
  c = Char.ofNat 45 || c = Char.ofNat 95 || c = Char.ofNat 46 ||
  c = Char.ofNat 33 || c = Char.ofNat 126 || c = Char.ofNat 42 ||
  c = Char.ofNat 39 || c = Char.ofNat 40 || c = Char.ofNat 41

/-- Uppercase hexadecimal digits, used by percent-escapes. -/
def hexDigitUpper (n : Nat) : Char :=
  [Char.ofNat 48, Char.ofNat 49, Char.ofNat 50, Char.ofNat 51, Char.ofNat 52,
   Char.ofNat 53, Char.ofNat 54, Char.ofNat 55, Char.ofNat 56, Char.ofNat 57,
   Char.ofNat 65, Char.ofNat 66, Char.ofNat 67, Char.ofNat 68, Char.ofNat 69,
   Char.ofNat 70].getD n (Char.ofNat 48)

/-- UTF-8 encoding of one character. -/
def utf8Bytes (c : Char) : List Nat :=
  let n := c.toNat
  if n < 128 then [n]
  else if n < 2048 then [192 + n / 64, 128 + n % 64]
  else if n < 65536 then [224 + n / 4096, 128 + n / 64 % 64, 128 + n % 64]
  else [240 + n / 262144, 128 + n / 4096 % 64, 128 + n / 64 % 64, 128 + n % 64]

/-- A percent-escape `%XX` for one byte. -/
def percentEscape (b : Nat) : List Char :=
  [Char.ofNat 37, hexDigitUpper (b / 16), hexDigitUpper (b % 16)]

/-- Encoding of one character under `encodeURIComponent`. -/
def encodeURIChar (c : Char) : List Char :=
  if isURIUnescaped c then [c] else ((utf8Bytes c).map percentEscape).flatten

/-- Model of the ECMAScript `encodeURIComponent` builtin. -/
def encodeURIComponent (s : String) : String :=
  ⟨(s.data.map encodeURIChar).flatten⟩

/-! ### Keccak-256

Model of the Keccak-256 hash used by the ethers.js wallet to turn a
secp256k1 public key into an Ethereum address. Lanes are `Nat` reduced
modulo `2 ^ 64`. -/

/-- Rotate a 64-bit lane left by `k` bit positions. -/
def rot64 (k w : Nat) : Nat := ((w <<< k) ||| (w >>> (64 - k))) % M64

/-- The 24 Keccak iota round constants, rendered in decimal. -/
def keccakRC : List Nat :=
  [1, 32898, 9223372036854808714,
   9223372039002292224, 32907, 2147483649,
   9223372039002292353, 9223372036854808585, 138,
   136, 2147516425, 2147483658,
   2147516555, 9223372036854775947, 9223372036854808713,
   9223372036854808579, 9223372036854808578, 9223372036854775936,
   32778, 9223372039002259466, 9223372039002292353,
   9223372036854808704, 2147483649, 9223372039002292232]

/-- Keccak rotation offsets, indexed by lane `x + 5 * y`: generated from
the rho walk that starts at lane (1, 0), rotates by the triangular numbers
`(t + 1) * (t + 2) / 2` modulo 64, and steps via `(x, y) := (y, 2x + 3y)`. -/
def keccakRotOff : List Nat :=
  ((List.range 24).foldl
    (fun (st : List Nat × Nat × Nat) t =>
      let tbl := st.1
      let x := st.2.1
      let y := st.2.2
      (tbl.set (x + 5 * y) ((t + 1) * (t + 2) / 2 % 64), y, (2 * x + 3 * y) % 5))
    (List.replicate 25 0, 1, 0)).1

/-- The Keccak theta step. -/
def keccakTheta (A : List Nat) : List Nat :=
  let C := (List.range 5).map (fun x =>
    A.getD x 0 ^^^ A.getD (x + 5) 0 ^^^ A.getD (x + 10) 0 ^^^
      A.getD (x + 15) 0 ^^^ A.getD (x + 20) 0)
  let D := (List.range 5).map (fun x =>
    C.getD ((x + 4) % 5) 0 ^^^ rot64 1 (C.getD ((x + 1) % 5) 0))
  (List.range 25).map (fun i => A.getD i 0 ^^^ D.getD (i % 5) 0)

/-- The Keccak rho and pi steps. -/
def keccakRhoPi (A : List Nat) : List Nat :=
  (List.range 25).foldl
    (fun B i =>
      let x := i % 5
      let y := i / 5
      B.set (y + 5 * ((2 * x + 3 * y) % 5)) (rot64 (keccakRotOff.getD i 0) (A.getD i 0)))
    (List.replicate 25 0)

/-- The Keccak chi step. -/
def keccakChi (B : List Nat) : List Nat :=
  (List.range 25).map (fun i =>
    let x := i % 5
    let row := i - x
    B.getD i 0 ^^^ ((B.getD (row + (x + 1) % 5) 0 ^^^ (M64 - 1)) &&& B.getD (row + (x + 2) % 5) 0))

/-- One Keccak round, ending with the iota step. -/
def keccakRound (A : List Nat) (rc : Nat) : List Nat :=
  let C := keccakChi (keccakRhoPi (keccakTheta A))
  C.set 0 (C.getD 0 0 ^^^ rc)

/-- The Keccak-f[1600] permutation. -/
def keccakF (A : List Nat) : List Nat := keccakRC.foldl keccakRound A

/-- Little-endian packing of up to eight bytes into a lane. -/
def bytesToLane : List Nat → Nat
  | [] => 0
  | b :: rest => b + 256 * bytesToLane rest

/-- Little-endian unpacking of a lane into eight bytes. -/
def laneToBytes (w : Nat) : List Nat :=
  [w % 256, w / 2 ^ 8 % 256, w / 2 ^ 16 % 256, w / 2 ^ 24 % 256,
   w / 2 ^ 32 % 256, w / 2 ^ 40 % 256, w / 2 ^ 48 % 256, w / 2 ^ 56 % 256]

/-- Split bytes into lanes of eight bytes (fuel-based structural recursion). -/
def bytesToLanes (fuel : Nat) (bytes : List Nat) : List Nat :=
  match fuel with
  | 0 => []
  | fuel + 1 =>
    match bytes with
    | [] => []
    | bs => bytesToLane (bs.take 8) :: bytesToLanes fuel (bs.drop 8)

/-- Keccak multi-rate padding for rate 136 with the original 0x01 domain
byte, as used by Ethereum. -/
def keccak256Pad (msg : List Nat) : List Nat :=
  let padLen := 136 - msg.length % 136
  if padLen = 1 then msg ++ [129]
  else msg ++ 1 :: List.replicate (padLen - 2) 0 ++ [128]

/-- Absorb one 136-byte block into the sponge state. -/
def keccakAbsorbBlock (A : List Nat) (block : List Nat) : List Nat :=
  let lanes := bytesToLanes 17 block
  keccakF ((List.range 25).map (fun i => A.getD i 0 ^^^ lanes.getD i 0))

/-- Absorb the padded message 136 bytes at a time. -/
def keccakAbsorb (fuel : Nat) (A : List Nat) (bytes : List Nat) : List Nat :=
  match fuel with
  | 0 => A
  | fuel + 1 =>
    match bytes with
    | [] => A
    | bs => keccakAbsorb fuel (keccakAbsorbBlock A (bs.take 136)) (bs.drop 136)

/-- Keccak-256 of a byte list: absorb the padded input into an all-zero
state and squeeze the first 32 bytes. -/
def keccak256 (msg : List Nat) : List Nat :=
  let padded := keccak256Pad msg
  let A := keccakAbsorb (padded.length / 136) (List.replicate 25 0) padded
  (((A.take 4).map laneToBytes).flatten).take 32

/-! ### secp256k1 and the ethers.js wallet

Model of the external ethers.js v5 `new ethers.Wallet(privateKeyHex)`
constructor that `deriveSecp256k1Wallet` calls: it validates that the key is
a 32-byte hex quantity inside the secp256k1 group order, derives the public
point `d * G` on secp256k1, and renders the uncompressed public key and the
EIP-55 checksummed Keccak address. Jacobian coordinates are used for the
point arithmetic; field elements are `Nat` reduced modulo the field prime. -/

namespace Secp256k1

/-- The secp256k1 field prime. -/
def P : Nat := 0xFFFFFFFFFFFFFFFFFFFFFFFFFFFFFFFFFFFFFFFFFFFFFFFFFFFFFFFEFFFFFC2F

/-- The order of the secp256k1 group. -/
def N : Nat := 0xFFFFFFFFFFFFFFFFFFFFFFFFFFFFFFFEBAAEDCE6AF48A03BBFD25E8CD0364141

/-- The x coordinate of the secp256k1 base point. -/
def Gx : Nat := 0x79BE667EF9DCBBAC55A06295CE870B07029BFCDB2DCE28D959F2815B16F81798

/-- The y coordinate of the secp256k1 base point. -/
def Gy : Nat := 0x483ADA7726A3C4655DA4FBFC0E1108A8FD17B448A68554199C47D08FFB10D4B8

/-- Field addition. -/
def fadd (a b : Nat) : Nat := (a + b) % P

/-- Field subtraction. -/
def fsub (a b : Nat) : Nat := (a + (P - b % P)) % P

/-- Field multiplication. -/
def fmul (a b : Nat) : Nat := a * b % P

/-- Binary modular exponentiation; the fuel bounds the number of exponent
bits and makes the recursion structural (320 covers every exponent used). -/
def powModAux (fuel b e m : Nat) : Nat :=
  match fuel with
  | 0 => 1 % m
  | fuel + 1 =>
    if e = 0 then 1 % m
    else
      let r := powModAux fuel (b * b % m) (e / 2) m
      if e % 2 = 1 then b * r % m else r

/-- Binary modular exponentiation for exponents below `2 ^ 320`. -/
def powMod (b e m : Nat) : Nat := powModAux 320 b e m

/-- Field inverse by Fermat. -/
def finv (a : Nat) : Nat := powMod a (P - 2) P

/-- Doubling of a Jacobian point; the point at infinity has `Z = 0`. -/
def jDouble : Nat × Nat × Nat → Nat × Nat × Nat
  | (X, Y, Z) =>
    let S := fmul 4 (fmul X (fmul Y Y))
    let M := fmul 3 (fmul X X)
    let X2 := fsub (fmul M M) (fmul 2 S)
    let Y2 := fsub (fmul M (fsub S X2)) (fmul 8 (fmul (fmul Y Y) (fmul Y Y)))
    let Z2 := fmul 2 (fmul Y Z)
    (X2, Y2, Z2)

/-- Addition of Jacobian points. -/
def jAdd (Pj Qj : Nat × Nat × Nat) : Nat × Nat × Nat :=
  match Pj, Qj with
  | (X1, Y1, Z1), (X2, Y2, Z2) =>
    if Z1 = 0 then (X2, Y2, Z2)
    else if Z2 = 0 then (X1, Y1, Z1)
    else
      let Z1Z1 := fmul Z1 Z1
      let Z2Z2 := fmul Z2 Z2
      let U1 := fmul X1 Z2Z2
      let U2 := fmul X2 Z1Z1
      let S1 := fmul Y1 (fmul Z2 Z2Z2)
      let S2 := fmul Y2 (fmul Z1 Z1Z1)
      if U1 = U2 then
        if S1 = S2 then jDouble (X1, Y1, Z1) else (1, 1, 0)
      else
        let H := fsub U2 U1
        let HH := fmul H H
        let HHH := fmul H HH
        let V := fmul U1 HH
        let R := fsub S2 S1
        let X3 := fsub (fmul R R) (fadd HHH (fmul 2 V))
        let Y3 := fsub (fmul R (fsub V X3)) (fmul S1 HHH)
        let Z3 := fmul H (fmul Z1 Z2)
        (X3, Y3, Z3)

/-- Binary scalar multiplication accumulator; the fuel bounds the number of
scalar bits and makes the recursion structural. -/
def scalarMulAux (fuel k : Nat) (base acc : Nat × Nat × Nat) : Nat × Nat × Nat :=
  match fuel with
  | 0 => acc
  | fuel + 1 =>
    if k = 0 then acc
    else
      scalarMulAux fuel (k / 2) (jDouble base) (if k % 2 = 1 then jAdd acc base else acc)

/-- Conversion from Jacobian to affine coordinates. -/
def toAffine : Nat × Nat × Nat → Option (Nat × Nat)
  | (X, Y, Z) =>
    if Z = 0 then none
    else
      let zinv := finv Z
      let zinv2 := fmul zinv zinv
      some (fmul X zinv2, fmul Y (fmul zinv zinv2))

/-- The affine public point `d * G`. -/
def pubkeyPoint (d : Nat) : Option (Nat × Nat) :=
  toAffine (scalarMulAux 320 d (Gx, Gy, 1) (1, 1, 0))

end Secp256k1

/-- Big-endian fixed-width byte rendering of a natural number. -/
def natToBytesBE (len n : Nat) : List Nat :=
  match len with
  | 0 => []
  | len + 1 => natToBytesBE len (n / 256) ++ [n % 256]

/-- The uncompressed SEC1 encoding `04 || x || y` of `d * G`. -/
def secp256k1PubkeyBytes (d : Nat) : List Nat :=
  match Secp256k1.pubkeyPoint d with
  | some (x, y) => 4 :: (natToBytesBE 32 x ++ natToBytesBE 32 y)
  | none => []

/-- The EIP-55 checksummed rendering of a 20-byte Ethereum address. -/
def toChecksumAddress (addrBytes : List Nat) : String :=
  let hexChars := bytesToHexChars addrBytes
  let hashBytes := keccak256 (hexChars.map Char.toNat)
  let nib := fun (i : Nat) =>
    if i % 2 = 0 then hashBytes.getD (i / 2) 0 / 16 else hashBytes.getD (i / 2) 0 % 16
  ⟨Char.ofNat 48 :: Char.ofNat 120 :: (List.range 40).map (fun i =>
    let c := hexChars.getD i (Char.ofNat 48)
    if 8 ≤ nib i ∧ 97 ≤ c.toNat then Char.ofNat (c.toNat - 32) else c)⟩

/-- The value of one lowercase or uppercase hex digit. -/
def hexCharVal (c : Char) : Option Nat :=
  if 48 ≤ c.toNat ∧ c.toNat ≤ 57 then some (c.toNat - 48)
  else if 97 ≤ c.toNat ∧ c.toNat ≤ 102 then some (c.toNat - 87)
  else if 65 ≤ c.toNat ∧ c.toNat ≤ 70 then some (c.toNat - 55)
  else none

/-- Left fold accumulating the value of a hex digit string. -/
def parseHexDigitsAux : List Char → Nat → Option Nat
  | [], acc => some acc
  | c :: rest, acc =>
    match hexCharVal c with
    | none => none
    | some v => parseHexDigitsAux rest (acc * 16 + v)

/-- Parse a list of hex digits into a natural number. -/
def parseHexDigits (l : List Char) : Option Nat :=
  parseHexDigitsAux l 0

/-- An ethers.js v5 wallet object: the normalized private key, the
uncompressed public key, and the EIP-55 checksummed address. -/
structure EthersWalletRec where
  privateKey : String
  publicKey : String
  address : String
deriving Repr, DecidableEq

/-- Model of the external ethers.js v5 `new ethers.Wallet(privateKeyHex)`
constructor: reject anything but a 32-byte hex quantity strictly between 0
and the secp256k1 group order, then derive the public point and address. -/
def ethersWallet (privateKeyHex : String) : Except String EthersWalletRec :=
  match privateKeyHex.data with
  | c0 :: cx :: ds =>
    if c0 = Char.ofNat 48 ∧ cx = Char.ofNat 120 ∧ ds.length = 64 then
      match parseHexDigits ds with
      | none => .error ("invalid private key")
      | some d =>
        if d = 0 ∨ Secp256k1.N ≤ d then .error ("invalid private key")
        else
          let pubBytes := secp256k1PubkeyBytes d
          .ok { privateKey := "0x" ++ bytesToHex (natToBytesBE 32 d),
                publicKey := "0x" ++ bytesToHex pubBytes,
                address := toChecksumAddress ((keccak256 (pubBytes.drop 1)).drop 12) }
    else .error ("invalid private key")
  | _ => .error ("invalid private key")

/-! ### Browser environment model

Web Storage is an explicit association list; `setItem` overwrites an
existing key or appends a new entry, `getItem` returns the stored value if
present. A `WebStorage` value carries both the durable `localStorage` area
and the session-scoped `sessionStorage` area; ending the session (closing
the tab) discards the session area. JavaScript exceptions surfaced by the
WebAuthn API are modelled by their `name` discriminant plus message. -/

/-- One Web Storage area: `setItem` semantics. -/
def setItem (items : List (String × String)) (k v : String) : List (String × String) :=
  if items.any (fun p => p.1 = k) then
    items.map (fun p => if p.1 = k then (k, v) else p)
  else items ++ [(k, v)]

/-- One Web Storage area: `getItem` semantics (`none` models `null`). -/
def getItem (items : List (String × String)) (k : String) : Option String :=
  (items.find? (fun p => p.1 = k)).map (fun p => p.2)

/-- The durable and session-scoped storage areas of the page. -/
structure WebStorage where
  localItems : List (String × String)
  sessionItems : List (String × String)
deriving Repr, DecidableEq

/-- Ending the session or closing the tab discards `sessionStorage` and
keeps `localStorage`. -/
def sessionEnd (st : WebStorage) : WebStorage :=
  { localItems := st.localItems, sessionItems := [] }

/-- A JavaScript exception, discriminated by its `name` as the sources do. -/
inductive JsError where
  | notAllowed (msg : String)
  | notSupported (msg : String)
  | other (msg : String)
deriving Repr, DecidableEq

/-- The message of a JavaScript exception. -/
def JsError.msg : JsError → String
  | .notAllowed m => m
  | .notSupported m => m
  | .other m => m

/-- A platform-authenticator credential as surfaced by
`navigator.credentials.create`: the credential id, the raw id bytes, and
the attestation response public key (`getPublicKey` may be unsupported). -/
structure AttestationCredential where
  id : String
  rawId : List Nat
  getPublicKeySupported : Bool
  publicKeyBytes : List Nat
deriving Repr, DecidableEq

/-! ### Wallet creation (login clientlib)

Embedding of
`apps/blockchain-aem/components/login/clientlibs/js/biometric-wallet-creation.js`:
the P-256 credential public key is hashed with SHA-256, the digest is used
as a secp256k1 private key through the ethers.js wallet constructor, and
only public linkage data is written to durable storage. -/

namespace WalletCreation

/-- The message thrown by `ensureEthers` when ethers.js is missing. -/
def ensureEthersMessage : String :=
  "ethers.js not loaded. Add the ethers-5.7.2 script tag."

/-- Embedding of `deriveSecp256k1Wallet`: hash the P-256 public key with
SHA-256, render the 32 digest bytes as a hex private key, and construct an
ethers.js wallet from it. The `ethersLoaded` flag models the `ensureEthers`
guard. -/
def deriveSecp256k1Wallet (ethersLoaded : Bool) (p256PubKey : List Nat) :
    Except String EthersWalletRec :=
  if ethersLoaded = false then .error ensureEthersMessage
  else
    let entropy := sha256 p256PubKey
    let privateKeyHex := "0x" ++ bytesToHex entropy
    ethersWallet privateKeyHex

/-- The object literal returned by `deriveEthereumWallet`. -/
structure DerivedWallet where
  address : String
  privateKey : String
  publicKey : String
deriving Repr, DecidableEq

/-- Embedding of `deriveEthereumWallet`: repackage the derived wallet as
an address, private key, and public key record. -/
def deriveEthereumWallet (ethersLoaded : Bool) (p256PubKey : List Nat) :
    Except String DerivedWallet :=
  (deriveSecp256k1Wallet ethersLoaded p256PubKey).map
    (fun w => { address := w.address, privateKey := w.privateKey, publicKey := w.publicKey })

/-- The wallet data object returned by `createBiometricWallet`. -/
structure WalletData where
  address : String
  privateKey : String
  publicKey : String
  credentialId : String
  p256PubKey : List Nat
  rawId : List Nat
deriving Repr, DecidableEq

/-- The browser environment consumed by `createBiometricWallet`: WebAuthn
support, the ethers.js global, and the outcome of the credential-creation
hardware prompt. -/
structure CreateEnv where
  webAuthnSupported : Bool
  ethersLoaded : Bool
  credentialResult : Except JsError AttestationCredential
deriving Repr

/-- Embedding of `createBiometricWallet`: check WebAuthn and ethers.js,
run the hardware credential-creation prompt, and derive the secp256k1
wallet from the returned P-256 public key. Errors from the prompt and from
derivation propagate unchanged (the source rethrows them). -/
def createBiometricWallet (env : CreateEnv) : Except JsError WalletData :=
  if env.webAuthnSupported = false then
    .error (.other ("Biometrics not supported on this device"))
  else if env.ethersLoaded = false then .error (.other ensureEthersMessage)
  else
    match env.credentialResult with
    | .error e => .error e
    | .ok credential =>
      match deriveEthereumWallet true credential.publicKeyBytes with
      | .error m => .error (.other m)
      | .ok w =>
        .ok { address := w.address, privateKey := w.privateKey, publicKey := w.publicKey,
              credentialId := credential.id, p256PubKey := credential.publicKeyBytes,
              rawId := credential.rawId }

/-- The backend registration call of `registerBiometricWallet`: the model
keeps only its outcome, a response or a transport/HTTP failure message. -/
def registerBiometricWallet (registerResponse : Except String String) :
    Except JsError String :=
  match registerResponse with
  | .error m => .error (.other m)
  | .ok r => .ok r

/-- The environment consumed by `setupBiometricWallet`. -/
structure SetupEnv where
  webAuthnSupported : Bool
  ethersLoaded : Bool
  credentialResult : Except JsError AttestationCredential
  registerResponse : Except String String
deriving Repr

/-- The record returned by a successful `setupBiometricWallet`. -/
structure SetupResult where
  address : String
  privateKey : String
  credentialId : String
deriving Repr, DecidableEq

/-- Embedding of the step 3 storage block of `setupBiometricWallet`: the
wallet address, credential id, base64 P-256 public key and secp256k1 public
key go to durable `localStorage`; the derived private key goes to
session-scoped `sessionStorage` only. -/
def storeWalletLocally (walletData : WalletData) (st : WebStorage) : WebStorage :=
  let l1 := setItem st.localItems ("blockchain_aem_wallet_address") walletData.address
  let l2 := setItem l1 ("blockchain_aem_credential_id") walletData.credentialId
  let p256PubKeyBase64 := BiometricManager.arrayBufferToBase64 walletData.p256PubKey
  let l3 := setItem l2 ("blockchain_aem_p256_pubkey") p256PubKeyBase64
  let l4 := setItem l3 ("blockchain_aem_secp256k1_pubkey") walletData.publicKey
  let s1 := setItem st.sessionItems ("blockchain_aem_private_key") walletData.privateKey
  { localItems := l4, sessionItems := s1 }

/-- Embedding of `setupBiometricWallet`: create the wallet, register it
with the backend, then store the linkage data. Every failure path leaves
storage untouched, because the source throws before its storage writes. -/
def setupBiometricWallet (env : SetupEnv) (st : WebStorage) :
    Except JsError SetupResult × WebStorage :=
  match createBiometricWallet
      { webAuthnSupported := env.webAuthnSupported, ethersLoaded := env.ethersLoaded,
        credentialResult := env.credentialResult } with
  | .error e => (.error e, st)
  | .ok walletData =>
    match registerBiometricWallet env.registerResponse with
    | .error e => (.error e, st)
    | .ok _ =>
      (.ok { address := walletData.address, privateKey := walletData.privateKey,
             credentialId := walletData.credentialId },
       storeWalletLocally walletData st)

/-- Embedding of `getPrivateKeyForExport`: the derived private key is read
back from session storage only. -/
def getPrivateKeyForExport (st : WebStorage) : Option String :=
  getItem st.sessionItems ("blockchain_aem_private_key")

end WalletCreation

/-! ### Legacy wallet creation

Embedding of the older `biometric-wallet-creation.js` variant, whose local
`keccak256` helper actually computes a SHA-256 hex digest (its comment says
it is a demo stand-in) and whose `deriveEthereumAddress` returns a
truncated hash directly as the address. -/

namespace LegacyWalletCreation

/-- Embedding of the local `keccak256` helper of the legacy script. Despite
its name, the source computes `crypto.subtle.digest(SHA-256, data)` and
returns the hex string. -/
def keccak256 (data : List Nat) : String := bytesToHex (sha256 data)

/-- Embedding of `deriveEthereumAddress`: slice the coordinates out of the
65-byte `04 || x || y` key, hash them, and return `0x` followed by the
first 40 hex characters of the digest as the address. The `Uint8Array(64)`
target of the two `set` calls zero-fills whatever the slices do not cover. -/
def deriveEthereumAddress (pubKey : List Nat) : String :=
  let qx := (pubKey.drop 1).take 32
  let qy := (pubKey.drop 33).take 32
  let combined := qx ++ List.replicate (32 - qx.length) 0 ++
    qy ++ List.replicate (32 - qy.length) 0
  let hash := keccak256 combined
  ("0x") ++ ⟨hash.data.take 40⟩

end LegacyWalletCreation

/-! ### Biometric authentication manager

Embedding of `biometric-auth.js` (`BiometricManager`): passkey registration
linking a credential to an existing wallet, and biometric signing of write
proposals. Hardware prompts, the wallet extension, and backend calls are
modelled as explicit environment inputs; storage is threaded through. -/

namespace BiometricManager

/-- Embedding of `BiometricManager._storeCredentialId`: write the
credential id to durable local storage under a wallet-scoped key. -/
def storeCredentialId (walletAddress credentialId : String)
    (localItems : List (String × String)) : List (String × String) :=
  setItem localItems ("biometric_credential_" ++ walletAddress) credentialId

/-- Embedding of `BiometricManager._getStoredCredentialId`. -/
def getStoredCredentialId (walletAddress : String)
    (localItems : List (String × String)) : Option String :=
  getItem localItems ("biometric_credential_" ++ walletAddress)

/-- Embedding of `BiometricManager._extractPublicKey`: use the attestation
`getPublicKey` bytes when the browser supports it, otherwise a placeholder
`Uint8Array(65)` of zeros. -/
def extractPublicKey (attestation : AttestationCredential) : List Nat :=
  if attestation.getPublicKeySupported then attestation.publicKeyBytes
  else List.replicate 65 0

/-- The assertion object surfaced by `navigator.credentials.get`. -/
structure AssertionData where
  signature : List Nat
deriving Repr, DecidableEq

/-- Embedding of `BiometricManager._extractPublicKeyFromAssertion`: the
source always returns a fresh placeholder `Uint8Array(65)` of zeros,
whatever the assertion response contains (its comment says a real
implementation would fetch the key from the backend). -/
def extractPublicKeyFromAssertion (assertionResponse : AssertionData) : List Nat :=
  List.replicate 65 0

/-- The environment consumed by `BiometricManager.register`: biometric
availability, the outcome of the credential-creation prompt, the wallet
extension and its signature call, and the backend registration call. -/
structure RegisterEnv where
  available : Bool
  createResult : Except JsError AttestationCredential
  hasEthereum : Bool
  walletSignatureResult : Except String String
  registerResponse : Except String String

/-- The object returned by a successful `BiometricManager.register`. -/
structure RegisterSuccess where
  credentialId : String
  walletAddress : String
  deviceName : String
deriving Repr, DecidableEq

/-- Embedding of `BiometricManager.register`: check availability, run the
hardware credential-creation prompt (a `NotAllowedError` becomes the user
cancellation error), obtain the proof-of-control wallet signature, submit
the registration to the backend, and only then persist the credential id
in durable local storage. -/
def register (walletAddress deviceName : String) (env : RegisterEnv)
    (st : WebStorage) : Except String RegisterSuccess × WebStorage :=
  if env.available = false then
    (.error ("Biometric authentication not available"), st)
  else
    match env.createResult with
    | .error (.notAllowed _) => (.error ("User cancelled biometric registration"), st)
    | .error e => (.error ("Biometric registration failed: " ++ e.msg), st)
    | .ok credential =>
      let _publicKeyBase64 := arrayBufferToBase64 (extractPublicKey credential)
      if env.hasEthereum = false then
        (.error ("MetaMask not available for wallet signature"), st)
      else
        match env.walletSignatureResult with
        | .error m => (.error ("Wallet signature failed: " ++ m), st)
        | .ok _walletSignature =>
          match env.registerResponse with
          | .error m => (.error m, st)
          | .ok _ =>
            (.ok { credentialId := credential.id, walletAddress := walletAddress,
                   deviceName := deviceName },
             { st with localItems := storeCredentialId walletAddress credential.id st.localItems })

/-- The challenge JSON returned by the backend challenge request. -/
structure ChallengeData where
  challenge : String
  proposalId : String
deriving Repr, DecidableEq

/-- Embedding of the challenge request URL built in step 1 of
`BiometricManager.signWriteProposal`: a GET carrying the percent-encoded
path and the percent-encoded raw content. The tier argument of the
surrounding function does not occur in this URL. -/
def signWriteProposalChallengeRequest (path content : String) (tier : Nat) : String :=
  "/bin/blockchain-aem/propose-write-biometric?path=" ++ encodeURIComponent path ++
    "&content=" ++ encodeURIComponent content

/-- The JSON body of the proposal submission POST in step 4 of
`BiometricManager.signWriteProposal`. -/
structure ProposalBody where
  proposalId : String
  walletAddress : String
  credentialId : String
  signature : String
  publicKey : String
  challenge : String
  path : String
  content : String
  tier : Nat
deriving Repr, DecidableEq

/-- Embedding of the proposal body assembly of
`BiometricManager.signWriteProposal` (steps 3 and 4): base64 the assertion
signature, take the placeholder public key from
`extractPublicKeyFromAssertion`, and echo the challenge, path, raw content
and tier. -/
def signWriteProposalBody (path content : String) (tier : Nat)
    (walletAddress credentialId : String) (challengeData : ChallengeData)
    (assertion : AssertionData) : ProposalBody :=
  { proposalId := challengeData.proposalId,
    walletAddress := walletAddress,
    credentialId := credentialId,
    signature := arrayBufferToBase64 assertion.signature,
    publicKey := arrayBufferToBase64 (extractPublicKeyFromAssertion assertion),
    challenge := challengeData.challenge,
    path := path,
    content := content,
    tier := tier }

/-- The environment consumed by `BiometricManager.signWriteProposal`:
biometric availability, the session wallet lookup, the backend challenge
response, the outcome of the assertion prompt, and the proposal-submission
transport. The transport is indexed by the submission attempt number so
that retry behaviour is observable; the source performs its single fetch
with attempt number zero. -/
structure SignEnv where
  available : Bool
  sessionWallet : Option String
  challengeResult : Except String ChallengeData
  assertionResult : Except JsError AssertionData
  submitResponse : ProposalBody → Nat → Except String String

/-- Embedding of `BiometricManager.signWriteProposal`: look up the wallet
and stored credential id, request the challenge, run the assertion prompt
(a `NotAllowedError` becomes the user cancellation error), assemble the
proposal body, and submit it exactly once (attempt number zero). No path
writes to storage. -/
def signWriteProposal (path content : String) (tier : Nat) (env : SignEnv)
    (st : WebStorage) : Except String String × WebStorage :=
  if env.available = false then
    (.error ("Biometric authentication not available"), st)
  else
    match env.sessionWallet with
    | none => (.error ("Not authenticated with wallet"), st)
    | some walletAddress =>
      match getStoredCredentialId walletAddress st.localItems with
      | none => (.error ("No passkey registered for this wallet. Please register first."), st)
      | some credentialId =>
        match env.challengeResult with
        | .error m => (.error m, st)
        | .ok challengeData =>
          match env.assertionResult with
          | .error (.notAllowed _) =>
            (.error ("User cancelled biometric authentication"), st)
          | .error e => (.error ("Biometric authentication failed: " ++ e.msg), st)
          | .ok assertion =>
            let body := signWriteProposalBody path content tier walletAddress
              credentialId challengeData assertion
            match env.submitResponse body 0 with
            | .error m => (.error m, st)
            | .ok result => (.ok result, st)

end BiometricManager

/-- A full register, sign, clear-session cycle on an initially empty
storage: run `setupBiometricWallet`, then `signWriteProposal`, then end the
session; the value is the storage that survives. -/
def registerSignClearSessionCycle (setupEnv : WalletCreation.SetupEnv)
    (signEnv : BiometricManager.SignEnv) (path content : String) (tier : Nat) :
    WebStorage :=
  let stAfterSetup := (WalletCreation.setupBiometricWallet setupEnv ⟨[], []⟩).2
  let stAfterSign := (BiometricManager.signWriteProposal path content tier signEnv stAfterSetup).2
  sessionEnd stAfterSign

/-! ### Challenge registry

Modelled from the spec: the server side of the
`/bin/blockchain-aem/propose-write-biometric` endpoint (the Sling servlet
that mints and consumes challenges) is not among the repository sources;
only its client is. Following the data-model section of the specification,
a Challenge carries a nonce, a proposal identifier and an expiry, may be
consumed by at most one valid assertion, and expired or already-consumed
challenges are rejected. -/

namespace ChallengeRegistry

/-- Modelled from the spec: a server-issued single-use challenge. -/
structure ServerChallenge where
  nonce : String
  proposalId : String
  expiresAt : Nat
deriving Repr, DecidableEq

/-- Modelled from the spec: the registry state, with the issued challenges
and the nonces already consumed. -/
structure RegistryState where
  issued : List ServerChallenge
  consumed : List String
deriving Repr, DecidableEq

/-- Modelled from the spec: the rejection reasons of proposal verification. -/
inductive SubmitError where
  | UnknownChallenge
  | ChallengeConsumed
  | ChallengeExpired
  | SignatureMismatch
deriving Repr, DecidableEq

/-- Modelled from the spec: verifying a submitted proposal consumes its
challenge. A submission referencing an unknown nonce, an already-consumed
nonce, an expired challenge, or carrying an invalid assertion is rejected;
otherwise the nonce is marked consumed. -/
def verifySubmission (reg : RegistryState) (now : Nat) (nonce : String)
    (assertionValid : Bool) : Except SubmitError RegistryState :=
  match reg.issued.find? (fun ch => ch.nonce = nonce) with
  | none => .error .UnknownChallenge
  | some ch =>
    if reg.consumed.contains nonce then .error .ChallengeConsumed
    else if ch.expiresAt < now then .error .ChallengeExpired
    else if assertionValid = false then .error .SignatureMismatch
    else .ok { issued := reg.issued, consumed := nonce :: reg.consumed }

end ChallengeRegistry

/-! ### Supporting lemmas -/

/-- No branch of `signWriteProposal` writes to either storage area. -/
theorem signWriteProposal_storage_unchanged (path content : String) (tier : Nat)
    (env : BiometricManager.SignEnv) (st : WebStorage) :
    (BiometricManager.signWriteProposal path content tier env st).2 = st := by
  unfold BiometricManager.signWriteProposal
  repeat' split <;> try rfl
  dsimp only
  split <;> rfl

/-! ### Claim theorems -/

set_option maxRecDepth 1000000

/-- C2: derivation is a pure, deterministic function of the credential
public-key bytes: two calls of `deriveSecp256k1Wallet` (and of
`deriveEthereumWallet`) on the same byte string yield the same derived
wallet; the embedded functions consume no randomness. -/
theorem deriveIdentity_deterministic (k k' : List Nat) (h : k = k') :
    WalletCreation.deriveSecp256k1Wallet true k = WalletCreation.deriveSecp256k1Wallet true k' ∧
    WalletCreation.deriveEthereumWallet true k = WalletCreation.deriveEthereumWallet true k' := by
  subst h
  exact ⟨rfl, rfl⟩

/-- Witness for C2: the derivation called twice on one concrete key. -/
theorem deriveIdentity_deterministic_witness :
    WalletCreation.deriveSecp256k1Wallet true [4, 1, 2] =
      WalletCreation.deriveSecp256k1Wallet true [4, 1, 2] ∧
    WalletCreation.deriveEthereumWallet true [4, 1, 2] =
      WalletCreation.deriveEthereumWallet true [4, 1, 2] :=
  deriveIdentity_deterministic [4, 1, 2] [4, 1, 2] rfl

/-- C1: the legacy `deriveEthereumAddress` violates the derivation
contract: on a well-formed 65-byte public key it returns `0x` followed by
the first 40 hex characters of the coordinate hash, that is, the truncated
hash itself as the address, with no private scalar and no curve point ever
computed. Evaluated at the concrete key `04 || 00 01 ... 3f`. -/
theorem legacy_address_is_truncated_hash :
    LegacyWalletCreation.deriveEthereumAddress (4 :: List.range 64) =
      "0xfdeab9acf3710362bd2658cdc9a29e8f9c757fcf" ∧
    bytesToHex (sha256 (List.range 64)) =
      "fdeab9acf3710362bd2658cdc9a29e8f9c757fcf9811603a8c447cd1d9151108" ∧
    LegacyWalletCreation.deriveEthereumAddress (4 :: List.range 64) =
      "0x" ++ ⟨(bytesToHexChars (sha256 (List.range 64))).take 40⟩ := by
  exact ⟨by decide, by decide, by decide⟩

/-- C6: the public key embedded in every submitted proposal body is the
base64 rendering of the 65-zero-byte placeholder that
`extractPublicKeyFromAssertion` always returns; it is one constant,
independent of the signer, the credential and the assertion. -/
theorem proposal_publicKey_constant_placeholder :
    (∀ (path content : String) (tier : Nat) (walletAddress credentialId : String)
        (ch : BiometricManager.ChallengeData) (a : BiometricManager.AssertionData),
      (BiometricManager.signWriteProposalBody path content tier walletAddress
          credentialId ch a).publicKey =
        "AAAAAAAAAAAAAAAAAAAAAAAAAAAAAAAAAAAAAAAAAAAAAAAAAAAAAAAAAAAAAAAAAAAAAAAAAAAAAAAAAAAAAAA=") ∧
    BiometricManager.extractPublicKeyFromAssertion ⟨[1, 2, 3]⟩ =
      BiometricManager.extractPublicKeyFromAssertion ⟨[255]⟩ := by
  exact ⟨fun _ _ _ _ _ _ _ => rfl, rfl⟩

/-- C7 counterexample: inputs that are not well-formed public keys of the
registration curve, the empty byte string and the all-zero 65-byte string
(a zero point), do not fail with any InvalidKeyMaterial error: both
derivation variants happily produce a derived identity from them. -/
theorem derive_malformed_input_accepted :
    (WalletCreation.deriveSecp256k1Wallet true []).toOption.isSome = true ∧
    (WalletCreation.deriveEthereumWallet true (List.replicate 65 0)).toOption.isSome = true ∧
    LegacyWalletCreation.deriveEthereumAddress [] =
      "0xf5a5fd42d16a20302798ef6ed309979b43003d23" := by
  refine ⟨by decide, by decide, by decide⟩

/-- The compression round keeps the eight working variables. -/
theorem sha256Round_length (w st : List Nat) (i : Nat) (h : st.length = 8) :
    (sha256Round w st i).length = 8 := by
  rcases st with _ | ⟨a, st⟩; · simp at h
  rcases st with _ | ⟨b, st⟩; · simp at h
  rcases st with _ | ⟨c, st⟩; · simp at h
  rcases st with _ | ⟨d, st⟩; · simp at h
  rcases st with _ | ⟨e, st⟩; · simp at h
  rcases st with _ | ⟨f, st⟩; · simp at h
  rcases st with _ | ⟨g, st⟩; · simp at h
  rcases st with _ | ⟨hh, st⟩; · simp at h
  rcases st with _ | ⟨x, st⟩
  · rfl
  · simp at h

/-- Folding compression rounds keeps the eight working variables. -/
theorem foldl_sha256Round_length (w : List Nat) (l : List Nat) (st : List Nat)
    (h : st.length = 8) : (l.foldl (sha256Round w) st).length = 8 := by
  induction l generalizing st with
  | nil => simpa using h
  | cons i l ih => exact ih _ (sha256Round_length w st i h)

/-- One block compression keeps the eight hash words. -/
theorem sha256Compress_length (h ws : List Nat) (hh : h.length = 8) :
    (sha256Compress h ws).length = 8 := by
  unfold sha256Compress
  rw [List.length_zipWith, foldl_sha256Round_length _ _ _ hh, hh]
  simp

/-- Iterated block processing keeps the eight hash words. -/
theorem sha256Blocks_length (fuel : Nat) (bytes h : List Nat) (hh : h.length = 8) :
    (sha256Blocks fuel h bytes).length = 8 := by
  induction fuel generalizing h bytes with
  | zero => simpa [sha256Blocks] using hh
  | succ fuel ih =>
    unfold sha256Blocks
    split
    · exact hh
    · exact ih _ _ (sha256Compress_length _ _ hh)

/-- Summing a constant four over a list. -/
theorem sum_map_const_four (l : List Nat) : (l.map (fun _ => (4 : Nat))).sum = 4 * l.length := by
  induction l with
  | nil => rfl
  | cons x l ih => simp [ih]; omega

/-- SHA-256 always produces 32 bytes. -/
theorem sha256_length (msg : List Nat) : (sha256 msg).length = 32 := by
  unfold sha256
  rw [List.length_flatten, List.map_map]
  rw [show (List.length ∘ word32ToBytes) = (fun _ => (4 : Nat)) from rfl]
  rw [sum_map_const_four, sha256Blocks_length ((sha256Pad msg).length / 64) (sha256Pad msg) sha256H0 rfl]

/-- Hex rendering doubles the length. -/
theorem bytesToHexChars_length (bs : List Nat) : (bytesToHexChars bs).length = 2 * bs.length := by
  unfold bytesToHexChars
  induction bs with
  | nil => rfl
  | cons b bs ih => simp_all [byteToHexChars]; omega

/-- The legacy derivation is total: every input yields an address-shaped
42-character string. -/
theorem deriveEthereumAddress_length (pk : List Nat) :
    (LegacyWalletCreation.deriveEthereumAddress pk).length = 42 := by
  unfold LegacyWalletCreation.deriveEthereumAddress LegacyWalletCreation.keccak256 bytesToHex
  show (("0x").data ++ _).length = 42
  rw [List.length_append, List.length_take, bytesToHexChars_length, sha256_length]
  rfl

/-- The only failure the wallet-derivation path can produce besides the
missing-library guard is the range rejection of the ethers constructor:
there is no key-material validation error. -/
theorem deriveSecp256k1Wallet_error_classification (pk : List Nat) (e : String)
    (h : WalletCreation.deriveSecp256k1Wallet true pk = .error e) :
    e = "invalid private key" := by
  unfold WalletCreation.deriveSecp256k1Wallet at h
  simp only [Bool.true_eq_false, if_false] at h
  unfold ethersWallet at h
  repeat' split at h
  all_goals first
    | (exact (Except.error.inj h).symm)
    | exact absurd h (by simp)

/-- C7 amended: the derivation operations perform no public-key
well-formedness validation and have no InvalidKeyMaterial failure. Every
byte string, malformed or not, yields an address-shaped result from the
legacy variant; and the ethers-backed variant either succeeds or fails with
the range rejection of the wallet constructor, never with a key-material
rejection. -/
theorem derive_no_key_material_validation (pk : List Nat) :
    (LegacyWalletCreation.deriveEthereumAddress pk).length = 42 ∧
    ((WalletCreation.deriveSecp256k1Wallet true pk).toOption.isSome = true ∨
      WalletCreation.deriveSecp256k1Wallet true pk = .error ("invalid private key")) := by
  refine ⟨deriveEthereumAddress_length pk, ?_⟩
  cases hd : WalletCreation.deriveSecp256k1Wallet true pk with
  | ok w => exact Or.inl (by simp [Except.toOption])
  | error e => exact Or.inr (by rw [deriveSecp256k1Wallet_error_classification pk e hd])

/-- Characters that `encodeURIComponent` leaves unescaped pass through the
percent-encoder unchanged. -/
theorem encodeURIChars_id (l : List Char) (h : ∀ c ∈ l, isURIUnescaped c = true) :
    (l.map encodeURIChar).flatten = l := by
  induction l with
  | nil => rfl
  | cons c l ih =>
    have hc : isURIUnescaped c = true := h c (List.mem_cons_self c l)
    simp only [List.map_cons, List.flatten_cons, encodeURIChar, hc, if_true]
    rw [ih (fun x hx => h x (List.mem_cons_of_mem c hx))]
    rfl

/-- `encodeURIComponent` is the identity on strings of unescaped
characters. -/
theorem encodeURIComponent_id (s : String) (h : ∀ c ∈ s.data, isURIUnescaped c = true) :
    encodeURIComponent s = s := by
  cases s with
  | mk data => exact congrArg String.mk (encodeURIChars_id data h)

/-- C5 counterexample: at the concrete invocation `signWriteProposal
(/content/x, hello, tier 1)` the challenge request URL carries the raw
content verbatim, contains no digest of the content (the hex SHA-256 of
`hello` does not occur in it, not even a 12-character prefix of it) and no
tier: the URL does not mention the tier and is identical for tier 1 and
tier 2. -/
theorem challenge_request_carries_raw_content_not_digest :
    BiometricManager.signWriteProposalChallengeRequest ("/content/x") ("hello") 1 =
      "/bin/blockchain-aem/propose-write-biometric?path=%2Fcontent%2Fx&content=hello" ∧
    ("content=hello").data <:+:
      (BiometricManager.signWriteProposalChallengeRequest ("/content/x") ("hello") 1).data ∧
    ¬ (("tier").data <:+:
      (BiometricManager.signWriteProposalChallengeRequest ("/content/x") ("hello") 1).data) ∧
    ¬ (((bytesToHexChars (sha256 [104, 101, 108, 108, 111])).take 12) <:+:
      (BiometricManager.signWriteProposalChallengeRequest ("/content/x") ("hello") 1).data) ∧
    BiometricManager.signWriteProposalChallengeRequest ("/content/x") ("hello") 1 =
      BiometricManager.signWriteProposalChallengeRequest ("/content/x") ("hello") 2 := by
  refine ⟨by decide, by decide, by decide, by decide, rfl⟩

/-- C5 amended: `signWriteProposal` requests its challenge with a GET that
carries the percent-encoded path and the percent-encoded raw content; no
content digest is computed and the tier is not part of the challenge
request (every tier yields the same request; the tier travels only in the
later proposal-submission body). When the content consists of unescaped
characters it appears verbatim in the request. -/
theorem challenge_request_bound_to_raw_content (path content : String)
    (tier tier' : Nat) (h : ∀ c ∈ content.data, isURIUnescaped c = true) :
    BiometricManager.signWriteProposalChallengeRequest path content tier =
      "/bin/blockchain-aem/propose-write-biometric?path=" ++
        encodeURIComponent path ++ "&content=" ++ content ∧
    BiometricManager.signWriteProposalChallengeRequest path content tier =
      BiometricManager.signWriteProposalChallengeRequest path content tier' := by
  constructor
  · unfold BiometricManager.signWriteProposalChallengeRequest
    rw [encodeURIComponent_id content h]
  · rfl

/-- Witness for C5 amended at a concrete path, content and tier pair. -/
theorem challenge_request_bound_to_raw_content_witness :
    BiometricManager.signWriteProposalChallengeRequest ("/content/x") ("hello") 1 =
      "/bin/blockchain-aem/propose-write-biometric?path=" ++
        encodeURIComponent ("/content/x") ++ "&content=" ++ "hello" ∧
    BiometricManager.signWriteProposalChallengeRequest ("/content/x") ("hello") 1 =
      BiometricManager.signWriteProposalChallengeRequest ("/content/x") ("hello") 2 :=
  challenge_request_bound_to_raw_content ("/content/x") ("hello") 1 2 (by decide)

/-- C8: a user-declined hardware prompt (the authenticator reports
`NotAllowedError`) makes registration fail with the user-cancellation
error and makes proposal signing fail with the user-cancellation error,
and in both flows the storage state is returned untouched: no partial
credential and no signature is persisted. -/
theorem user_cancellation_rejects_without_partial_state
    (wa dn : String) (env : BiometricManager.RegisterEnv) (st : WebStorage)
    (m : String) (hava : env.available = true)
    (hcreate : env.createResult = .error (.notAllowed m))
    (p c : String) (t : Nat) (senv : BiometricManager.SignEnv)
    (st' : WebStorage) (wa' cid m' : String)
    (hava' : senv.available = true) (hw : senv.sessionWallet = some wa')
    (hcid : BiometricManager.getStoredCredentialId wa' st'.localItems = some cid)
    (hch : senv.challengeResult = .ok ⟨"challenge", "proposal"⟩)
    (ha : senv.assertionResult = .error (.notAllowed m')) :
    BiometricManager.register wa dn env st =
      (.error ("User cancelled biometric registration"), st) ∧
    BiometricManager.signWriteProposal p c t senv st' =
      (.error ("User cancelled biometric authentication"), st') := by
  constructor
  · simp [BiometricManager.register, hava, hcreate]
  · simp [BiometricManager.signWriteProposal, hava', hw, hcid, hch, ha]

/-- Witness for C8 with a concrete cancelled registration and a concrete
cancelled signing attempt. -/
theorem user_cancellation_rejects_without_partial_state_witness :
    BiometricManager.register ("0xwallet") ("phone")
      { available := true, createResult := .error (.notAllowed ("cancelled")),
        hasEthereum := true, walletSignatureResult := .ok ("sig"),
        registerResponse := .ok ("registered") } ⟨[], []⟩ =
      (.error ("User cancelled biometric registration"), ⟨[], []⟩) ∧
    BiometricManager.signWriteProposal ("/content/x") ("body") 0
      { available := true, sessionWallet := some ("0xwallet"),
        challengeResult := .ok ⟨"challenge", "proposal"⟩,
        assertionResult := .error (.notAllowed ("cancelled")),
        submitResponse := fun _ _ => .ok ("accepted") }
      ⟨[("biometric_credential_0xwallet", "cred-1")], []⟩ =
      (.error ("User cancelled biometric authentication"),
       ⟨[("biometric_credential_0xwallet", "cred-1")], []⟩) :=
  user_cancellation_rejects_without_partial_state ("0xwallet") ("phone") _ _ ("cancelled")
    rfl rfl ("/content/x") ("body") 0 _ _ ("0xwallet") ("cred-1") ("cancelled") rfl rfl rfl rfl rfl

/-- C9 counterexample: with a transport that fails on the first submission
attempt and would succeed on a second attempt with the very same request,
`signWriteProposal` surfaces the transport failure: no retry of any kind is
performed, although the claimed bounded retry with the same assertion would
have succeeded. -/
theorem submission_not_retried_counterexample :
    (BiometricManager.signWriteProposal ("/x") ("c") 0
      { available := true, sessionWallet := some ("0xw"),
        challengeResult := .ok ⟨"ch", "p1"⟩,
        assertionResult := .ok ⟨[1, 2]⟩,
        submitResponse := fun _ n =>
          if n = 0 then .error ("Proposal submission failed") else .ok ("accepted") }
      ⟨[("biometric_credential_0xw", "cred")], []⟩).1 =
      .error ("Proposal submission failed") ∧
    (fun (_ : BiometricManager.ProposalBody) (n : Nat) =>
        if n = 0 then (.error ("Proposal submission failed") : Except String String)
        else .ok ("accepted"))
      (BiometricManager.signWriteProposalBody ("/x") ("c") 0 ("0xw") ("cred") ⟨"ch", "p1"⟩ ⟨[1, 2]⟩)
      1 = .ok ("accepted") := by
  exact ⟨rfl, rfl⟩

/-- C9 amended: the proposal submission is attempted exactly once, with the
already-obtained assertion; the outcome depends only on attempt number
zero of the transport (replacing every later attempt changes nothing), and
a transport failure on that single attempt is surfaced directly to the
caller with storage untouched. No retry, no backoff, no re-prompt. -/
theorem submission_single_attempt (p c : String) (t : Nat)
    (env : BiometricManager.SignEnv)
    (o' : BiometricManager.ProposalBody → Nat → Except String String)
    (st : WebStorage) (wa cid : String) (chd : BiometricManager.ChallengeData)
    (a : BiometricManager.AssertionData) (m : String)
    (hagree : ∀ b, o' b 0 = env.submitResponse b 0)
    (hava : env.available = true) (hw : env.sessionWallet = some wa)
    (hcid : BiometricManager.getStoredCredentialId wa st.localItems = some cid)
    (hch : env.challengeResult = .ok chd) (ha : env.assertionResult = .ok a)
    (hsub : env.submitResponse
      (BiometricManager.signWriteProposalBody p c t wa cid chd a) 0 = .error m) :
    BiometricManager.signWriteProposal p c t { env with submitResponse := o' } st =
      BiometricManager.signWriteProposal p c t env st ∧
    BiometricManager.signWriteProposal p c t env st = (.error m, st) := by
  have h2 : BiometricManager.signWriteProposal p c t env st = (.error m, st) := by
    simp [BiometricManager.signWriteProposal, hava, hw, hcid, hch, ha, hsub]
  refine ⟨?_, h2⟩
  rw [h2]
  simp [BiometricManager.signWriteProposal, hava, hw, hcid, hch, ha, hagree, hsub]

/-- Witness for C9 amended with a concrete failing transport. -/
theorem submission_single_attempt_witness :
    BiometricManager.signWriteProposal ("/x") ("c") 0
      { available := true, sessionWallet := some ("0xw"),
        challengeResult := .ok ⟨"ch", "p1"⟩, assertionResult := .ok ⟨[1, 2]⟩,
        submitResponse := fun _ _ => .error ("boom") }
      ⟨[("biometric_credential_0xw", "cred")], []⟩ =
      BiometricManager.signWriteProposal ("/x") ("c") 0
        { available := true, sessionWallet := some ("0xw"),
          challengeResult := .ok ⟨"ch", "p1"⟩, assertionResult := .ok ⟨[1, 2]⟩,
          submitResponse := fun _ _ => .error ("boom") }
        ⟨[("biometric_credential_0xw", "cred")], []⟩ ∧
    BiometricManager.signWriteProposal ("/x") ("c") 0
      { available := true, sessionWallet := some ("0xw"),
        challengeResult := .ok ⟨"ch", "p1"⟩, assertionResult := .ok ⟨[1, 2]⟩,
        submitResponse := fun _ _ => .error ("boom") }
      ⟨[("biometric_credential_0xw", "cred")], []⟩ =
      (.error ("boom"), ⟨[("biometric_credential_0xw", "cred")], []⟩) :=
  submission_single_attempt ("/x") ("c") 0
    { available := true, sessionWallet := some ("0xw"),
      challengeResult := .ok ⟨"ch", "p1"⟩, assertionResult := .ok ⟨[1, 2]⟩,
      submitResponse := fun _ _ => .error ("boom") }
    (fun _ _ => .error ("boom"))
    ⟨[("biometric_credential_0xw", "cred")], []⟩ "0xw" "cred"
    ⟨"ch", "p1"⟩ ⟨[1, 2]⟩ "boom" (fun _ => rfl) rfl rfl rfl rfl rfl rfl

/-- C4: a challenge is single-use. Once a submission consumes it, any
second submission referencing the same nonce is rejected with
`ChallengeConsumed`, even when the second assertion is cryptographically
valid and whatever the submission time; and a challenge whose expiry has
passed is rejected with `ChallengeExpired`. -/
theorem challenge_single_use_and_expiry
    (reg reg' : ChallengeRegistry.RegistryState) (now : Nat) (nonce : String)
    (v : Bool)
    (h : ChallengeRegistry.verifySubmission reg now nonce v = .ok reg') :
    (∀ (now' : Nat) (v' : Bool),
      ChallengeRegistry.verifySubmission reg' now' nonce v' =
        .error .ChallengeConsumed) ∧
    (∀ (reg₀ : ChallengeRegistry.RegistryState) (now₀ : Nat) (nonce₀ : String)
        (ch : ChallengeRegistry.ServerChallenge) (v₀ : Bool),
      reg₀.issued.find? (fun c => c.nonce = nonce₀) = some ch →
      reg₀.consumed.contains nonce₀ = false →
      ch.expiresAt < now₀ →
      ChallengeRegistry.verifySubmission reg₀ now₀ nonce₀ v₀ =
        .error .ChallengeExpired) := by
  constructor
  · unfold ChallengeRegistry.verifySubmission at h
    cases hf : reg.issued.find? (fun ch => ch.nonce = nonce) with
    | none => rw [hf] at h; exact absurd h (by simp)
    | some ch =>
      rw [hf] at h
      dsimp only at h
      split_ifs at h with h1 h2 h3
      have hr : ChallengeRegistry.RegistryState.mk reg.issued (nonce :: reg.consumed) = reg' :=
        Except.ok.inj h
      intro now' v'
      subst hr
      simp [ChallengeRegistry.verifySubmission, hf]
  · intro reg₀ now₀ nonce₀ ch v₀ hfind hcons hexp
    simp [ChallengeRegistry.verifySubmission, hfind, hcons, hexp]
    simpa using hcons

/-- Witness for C4: a challenge consumed at time 50 is rejected as consumed
on resubmission with a valid assertion, and a separate challenge expiring
at time 10 is rejected as expired at time 11. -/
theorem challenge_single_use_and_expiry_witness :
    ChallengeRegistry.verifySubmission ⟨[⟨"n1", "p1", 100⟩], ["n1"]⟩ 60 ("n1") true =
      .error .ChallengeConsumed ∧
    ChallengeRegistry.verifySubmission ⟨[⟨"n2", "p2", 10⟩], []⟩ 11 ("n2") true =
      .error .ChallengeExpired :=
  ⟨(challenge_single_use_and_expiry ⟨[⟨"n1", "p1", 100⟩], []⟩ ⟨[⟨"n1", "p1", 100⟩], ["n1"]⟩
      50 ("n1") true rfl).1 60 true,
   (challenge_single_use_and_expiry ⟨[⟨"n1", "p1", 100⟩], []⟩ ⟨[⟨"n1", "p1", 100⟩], ["n1"]⟩
      50 ("n1") true rfl).2 ⟨[⟨"n2", "p2", 10⟩], []⟩ 11 ("n2") ⟨"n2", "p2", 10⟩ true
      rfl rfl (by decide)⟩

/-- C3: after a full register, sign, clear-session cycle starting from
empty storage, the surviving durable storage holds exactly the four public
linkage entries (wallet address, credential id, the two public keys) and
session storage is empty; whenever the derived private key differs from
those public strings it occurs nowhere in durable storage. The
`storeCredentialId` helper likewise writes only the credential id. -/
theorem no_durable_secret_after_cycle
    (setupEnv : WalletCreation.SetupEnv) (signEnv : BiometricManager.SignEnv)
    (path content : String) (tier : Nat) (r : String)
    (cred : AttestationCredential) (w : WalletCreation.DerivedWallet)
    (hsup : setupEnv.webAuthnSupported = true)
    (heth : setupEnv.ethersLoaded = true)
    (hcred : setupEnv.credentialResult = .ok cred)
    (hderive : WalletCreation.deriveEthereumWallet true cred.publicKeyBytes = .ok w)
    (hreg : setupEnv.registerResponse = .ok r) :
    registerSignClearSessionCycle setupEnv signEnv path content tier =
      ⟨[("blockchain_aem_wallet_address", w.address),
        ("blockchain_aem_credential_id", cred.id),
        ("blockchain_aem_p256_pubkey", BiometricManager.arrayBufferToBase64 cred.publicKeyBytes),
        ("blockchain_aem_secp256k1_pubkey", w.publicKey)], []⟩ ∧
    (w.privateKey ≠ w.address → w.privateKey ≠ cred.id →
      w.privateKey ≠ BiometricManager.arrayBufferToBase64 cred.publicKeyBytes →
      w.privateKey ≠ w.publicKey →
      ∀ kv ∈ (registerSignClearSessionCycle setupEnv signEnv path content tier).localItems,
        kv.2 ≠ w.privateKey) ∧
    (∀ wa cid, BiometricManager.storeCredentialId wa cid [] =
      [("biometric_credential_" ++ wa, cid)]) := by
  have hsetup : WalletCreation.setupBiometricWallet setupEnv ⟨[], []⟩ =
      (.ok ⟨w.address, w.privateKey, cred.id⟩,
       ⟨[("blockchain_aem_wallet_address", w.address),
         ("blockchain_aem_credential_id", cred.id),
         ("blockchain_aem_p256_pubkey", BiometricManager.arrayBufferToBase64 cred.publicKeyBytes),
         ("blockchain_aem_secp256k1_pubkey", w.publicKey)],
        [("blockchain_aem_private_key", w.privateKey)]⟩) := by
    simp [WalletCreation.setupBiometricWallet, WalletCreation.createBiometricWallet,
          WalletCreation.registerBiometricWallet, hsup, heth, hcred, hderive, hreg,
          WalletCreation.storeWalletLocally, setItem]
  have hcycle : registerSignClearSessionCycle setupEnv signEnv path content tier =
      ⟨[("blockchain_aem_wallet_address", w.address),
        ("blockchain_aem_credential_id", cred.id),
        ("blockchain_aem_p256_pubkey", BiometricManager.arrayBufferToBase64 cred.publicKeyBytes),
        ("blockchain_aem_secp256k1_pubkey", w.publicKey)], []⟩ := by
    unfold registerSignClearSessionCycle
    rw [hsetup]
    dsimp only
    rw [signWriteProposal_storage_unchanged]
    rfl
  refine ⟨hcycle, ?_, fun wa cid => rfl⟩
  intro h1 h2 h3 h4 kv hkv
  rw [hcycle] at hkv
  simp only [List.mem_cons, List.not_mem_nil, or_false] at hkv
  rcases hkv with rfl | rfl | rfl | rfl
  · exact Ne.symm h1
  · exact Ne.symm h2
  · exact Ne.symm h3
  · exact Ne.symm h4

/-- Witness for C3: a concrete cycle with the wallet derived from an empty
P-256 key; the surviving durable storage is exactly the four public
entries and the derived private key is in none of them. -/
theorem no_durable_secret_after_cycle_witness :
    registerSignClearSessionCycle
      { webAuthnSupported := true, ethersLoaded := true,
        credentialResult := .ok ⟨"cred-1", [1], true, []⟩,
        registerResponse := .ok ("registered") }
      { available := false, sessionWallet := none, challengeResult := .error ("none"),
        assertionResult := .error (.other ("none")),
        submitResponse := fun _ _ => .error ("none") } "/x" "c" 0 =
      ⟨[("blockchain_aem_wallet_address", "0x41aD2bc63A2059f9b623533d87fe99887D794847"),
        ("blockchain_aem_credential_id", "cred-1"),
        ("blockchain_aem_p256_pubkey", BiometricManager.arrayBufferToBase64 []),
        ("blockchain_aem_secp256k1_pubkey",
         "0x04a34b99f22c790c4e36b2b3c2c35a36db06226e41c692fc82b8b56ac1c540c5bd5b8dec5235a0fa8722476c7709c02559e3aa73aa03918ba2d492eea75abea235")],
       []⟩ ∧
    ("0xe3b0c44298fc1c149afbf4c8996fb92427ae41e4649b934ca495991b7852b855" ≠
        "0x41aD2bc63A2059f9b623533d87fe99887D794847" →
      "0xe3b0c44298fc1c149afbf4c8996fb92427ae41e4649b934ca495991b7852b855" ≠ "cred-1" →
      "0xe3b0c44298fc1c149afbf4c8996fb92427ae41e4649b934ca495991b7852b855" ≠
        BiometricManager.arrayBufferToBase64 [] →
      "0xe3b0c44298fc1c149afbf4c8996fb92427ae41e4649b934ca495991b7852b855" ≠
        "0x04a34b99f22c790c4e36b2b3c2c35a36db06226e41c692fc82b8b56ac1c540c5bd5b8dec5235a0fa8722476c7709c02559e3aa73aa03918ba2d492eea75abea235" →
      ∀ kv ∈ (registerSignClearSessionCycle
        { webAuthnSupported := true, ethersLoaded := true,
          credentialResult := .ok ⟨"cred-1", [1], true, []⟩,
          registerResponse := .ok ("registered") }
        { available := false, sessionWallet := none, challengeResult := .error ("none"),
          assertionResult := .error (.other ("none")),
          submitResponse := fun _ _ => .error ("none") } "/x" "c" 0).localItems,
        kv.2 ≠ "0xe3b0c44298fc1c149afbf4c8996fb92427ae41e4649b934ca495991b7852b855") ∧
    (∀ wa cid, BiometricManager.storeCredentialId wa cid [] =
      [("biometric_credential_" ++ wa, cid)]) :=
  no_durable_secret_after_cycle
    { webAuthnSupported := true, ethersLoaded := true,
      credentialResult := .ok ⟨"cred-1", [1], true, []⟩,
      registerResponse := .ok ("registered") }
    { available := false, sessionWallet := none, challengeResult := .error ("none"),
      assertionResult := .error (.other ("none")),
      submitResponse := fun _ _ => .error ("none") } "/x" "c" 0 ("registered")
    ⟨"cred-1", [1], true, []⟩
    ⟨"0x41aD2bc63A2059f9b623533d87fe99887D794847",
     "0xe3b0c44298fc1c149afbf4c8996fb92427ae41e4649b934ca495991b7852b855",
     "0x04a34b99f22c790c4e36b2b3c2c35a36db06226e41c692fc82b8b56ac1c540c5bd5b8dec5235a0fa8722476c7709c02559e3aa73aa03918ba2d492eea75abea235"⟩
    rfl rfl rfl (by rfl) rfl

/-- Decoding inverts encoding on each sextet value. -/
theorem b64_index_char : ∀ n, n < 64 → b64Index (b64Char n) = n := by decide

/-- Encoded sextets are never the padding character. -/
theorem b64_char_ne_pad : ∀ n, n < 64 → b64Char n ≠ b64Pad := by decide

/-- Character-level round trip: decoding the `btoa` encoding of a byte
list (with the padding filtered out, as `base64ToArrayBuffer` does)
restores the bytes. -/
theorem atob_btoa : ∀ (bs : List Nat), (∀ b ∈ bs, b < 256) →
    atobBytes ((btoaChars bs).filter (fun c => decide (c ≠ b64Pad))) = bs
  | [], _ => rfl
  | [a], h => by
    have ha : a < 256 := h a (by simp)
    have h1 : a / 4 < 64 := by omega
    have h2 : a % 4 * 16 < 64 := by omega
    have n1 := b64_char_ne_pad _ h1
    have n2 := b64_char_ne_pad _ h2
    simp only [btoaChars, List.filter_cons, List.filter_nil, decide_eq_true_eq, ne_eq, n1, n2,
      not_false_eq_true, ite_true, not_true_eq_false, ite_false]
    rw [show atobBytes [b64Char (a / 4), b64Char (a % 4 * 16)] =
      [b64Index (b64Char (a / 4)) * 4 + b64Index (b64Char (a % 4 * 16)) / 16] from rfl]
    rw [b64_index_char _ h1, b64_index_char _ h2]
    simp only [List.cons.injEq, and_true]
    omega
  | [a, b], h => by
    have ha : a < 256 := h a (by simp)
    have hb : b < 256 := h b (by simp)
    have h1 : a / 4 < 64 := by omega
    have h2 : a % 4 * 16 + b / 16 < 64 := by omega
    have h3 : b % 16 * 4 < 64 := by omega
    have n1 := b64_char_ne_pad _ h1
    have n2 := b64_char_ne_pad _ h2
    have n3 := b64_char_ne_pad _ h3
    simp only [btoaChars, List.filter_cons, List.filter_nil, decide_eq_true_eq, ne_eq, n1, n2,
      n3, not_false_eq_true, ite_true, not_true_eq_false, ite_false]
    rw [show atobBytes [b64Char (a / 4), b64Char (a % 4 * 16 + b / 16), b64Char (b % 16 * 4)] =
      [b64Index (b64Char (a / 4)) * 4 + b64Index (b64Char (a % 4 * 16 + b / 16)) / 16,
       b64Index (b64Char (a % 4 * 16 + b / 16)) % 16 * 16 +
         b64Index (b64Char (b % 16 * 4)) / 4] from rfl]
    rw [b64_index_char _ h1, b64_index_char _ h2, b64_index_char _ h3]
    simp only [List.cons.injEq, and_true]
    constructor <;> omega
  | a :: b :: c :: rest, h => by
    have ha : a < 256 := h a (by simp)
    have hb : b < 256 := h b (by simp)
    have hc : c < 256 := h c (by simp)
    have h1 : a / 4 < 64 := by omega
    have h2 : a % 4 * 16 + b / 16 < 64 := by omega
    have h3 : b % 16 * 4 + c / 64 < 64 := by omega
    have h4 : c % 64 < 64 := by omega
    have n1 := b64_char_ne_pad _ h1
    have n2 := b64_char_ne_pad _ h2
    have n3 := b64_char_ne_pad _ h3
    have n4 := b64_char_ne_pad _ h4
    have ih := atob_btoa rest (fun x hx => h x (by simp [hx]))
    show atobBytes (List.filter _
      (b64Char (a / 4) :: b64Char (a % 4 * 16 + b / 16) ::
        b64Char (b % 16 * 4 + c / 64) :: b64Char (c % 64) :: btoaChars rest)) = _
    simp only [List.filter_cons, decide_eq_true_eq, ne_eq, n1, n2, n3, n4,
      not_false_eq_true, ite_true]
    rw [show ∀ l, atobBytes (b64Char (a / 4) :: b64Char (a % 4 * 16 + b / 16) ::
        b64Char (b % 16 * 4 + c / 64) :: b64Char (c % 64) :: l) =
      (b64Index (b64Char (a / 4)) * 4 + b64Index (b64Char (a % 4 * 16 + b / 16)) / 16) ::
        (b64Index (b64Char (a % 4 * 16 + b / 16)) % 16 * 16 +
          b64Index (b64Char (b % 16 * 4 + c / 64)) / 4) ::
        (b64Index (b64Char (b % 16 * 4 + c / 64)) % 4 * 64 + b64Index (b64Char (c % 64))) ::
        atobBytes l from fun l => rfl]
    rw [b64_index_char _ h1, b64_index_char _ h2, b64_index_char _ h3, b64_index_char _ h4, ih]
    simp only [List.cons.injEq, and_true]
    refine ⟨by omega, by omega, by omega⟩

/-- C10: the base64 helpers are a lossless round trip: for every byte
array, decoding the encoding restores the bytes, so signatures, challenges
and public keys survive the trip between authenticator and registry
unchanged. -/
theorem base64_roundtrip (bs : List Nat) (h : ∀ b ∈ bs, b < 256) :
    BiometricManager.base64ToArrayBuffer (BiometricManager.arrayBufferToBase64 bs) = bs := by
  unfold BiometricManager.base64ToArrayBuffer BiometricManager.arrayBufferToBase64
  exact atob_btoa bs h

/-- Witness for C10 at a concrete byte array. -/
theorem base64_roundtrip_witness :
    BiometricManager.base64ToArrayBuffer
      (BiometricManager.arrayBufferToBase64 [0, 127, 255, 10]) = [0, 127, 255, 10] :=
  base64_roundtrip [0, 127, 255, 10] (by decide)
